import Mathlib

/-!
Verification development for the connection/session management and
request-composition layer of `lookout-sdk-ml`
(`lookout/core/data_requests.py` and
`lookout/core/helpers/analyzer_context_manager.py`).

The Python code is shallowly embedded: the mutable `DataService` object
becomes an explicit state record, its methods become state-transformer
functions, and `threading.local` becomes a map from thread identifiers to
per-thread slots.  gRPC channels are identified by the order of their
creation (`create_channel` is modelled as drawing a fresh identifier);
`channel.close()` is modelled by a per-channel close counter so that
"closed exactly once" is expressible.
-/

namespace Lookout

/- Threads are identified by a natural number (Python thread identity);
gRPC channels are identified by their creation index (`create_channel` is
modelled as returning a fresh identifier each time it runs).  Both are
plain `Nat`s. -/

/-- The per-thread contents of `DataService._data_request_local`: the three
attributes `channel`, `data_stub` and `bblfsh_stub`, each read with
`getattr(..., name, None)`.  A stub object is modelled by the identifier of
the channel it was constructed from (`DataStub(channel)` /
`ProtocolServiceStub(channel)`). -/
structure Slot where
  channel : Option Nat
  data_stub : Option Nat
  bblfsh_stub : Option Nat
  deriving Repr, DecidableEq

/-- A fresh `threading.local` slot: all three attributes unset. -/
def Slot.empty : Slot := ⟨none, none, none⟩

/-- The state of one `DataService` instance.

* `locals` models `self._data_request_local`, one `Slot` per thread;
* `channels` models `self._data_request_channels`, the registry list of
  open channels;
* `nextChannel` is the next fresh identifier handed out by
  `create_channel(self._data_request_address)`;
* `closed c` counts how many times `channel.close()` has run on channel
  `c` (0 for a channel that is still open or was never created). -/
structure DataService where
  locals : Nat → Slot
  channels : List Nat
  nextChannel : Nat
  closed : Nat → Nat

/-- `DataService.__init__`: empty thread-local storage, empty registry. -/
def DataService.init : DataService :=
  { locals := fun _ => Slot.empty
    channels := []
    nextChannel := 0
    closed := fun _ => 0 }

/-- Replace the slot of one thread (an assignment to an attribute of
`self._data_request_local`, performed by thread `t`). -/
def DataService.setLocal (s : DataService) (t : Nat) (slot : Slot) :
    DataService :=
  { s with locals := fun u => if u = t then slot else s.locals u }

/-- `DataService._get_channel`, executed by thread `t`: return the thread's
channel, creating a fresh one and appending it to the registry when the
thread has none. -/
def DataService.get_channel (s : DataService) (t : Nat) :
    Nat × DataService :=
  match (s.locals t).channel with
  | some c => (c, s)
  | none =>
      let c := s.nextChannel
      let s1 := s.setLocal t { s.locals t with channel := some c }
      (c, { s1 with
              channels := s1.channels ++ [c]
              nextChannel := s1.nextChannel + 1 })

/-- `DataService.get_data`, executed by thread `t`: return the thread's
`DataStub`, creating it from `_get_channel()` when unset.  The returned
stub is identified by the channel it is bound to. -/
def DataService.get_data (s : DataService) (t : Nat) :
    Nat × DataService :=
  match (s.locals t).data_stub with
  | some stub => (stub, s)
  | none =>
      let p := s.get_channel t
      (p.1, p.2.setLocal t { p.2.locals t with data_stub := some p.1 })

/-- `DataService.get_bblfsh`, executed by thread `t`: return the thread's
Babelfish `ProtocolServiceStub`, creating it from `_get_channel()` when
unset. -/
def DataService.get_bblfsh (s : DataService) (t : Nat) :
    Nat × DataService :=
  match (s.locals t).bblfsh_stub with
  | some stub => (stub, s)
  | none =>
      let p := s.get_channel t
      (p.1, p.2.setLocal t { p.2.locals t with bblfsh_stub := some p.1 })

/-- `channel.close()`: bump the close counter of channel `c`. -/
def closeChan (s : DataService) (c : Nat) : DataService :=
  { s with closed := fun d => if d = c then s.closed d + 1 else s.closed d }

/-- `DataService.close_channel`, executed by thread `t`: when the thread
has a channel, remove it from the registry
(`self._data_request_channels.remove(channel)`), set the thread's
`channel`, `data_stub` and `bblfsh_stub` attributes to `None`, and close
the channel; otherwise do nothing. -/
def DataService.close_channel (s : DataService) (t : Nat) :
    DataService :=
  match (s.locals t).channel with
  | none => s
  | some c =>
      let s1 := { s with channels := s.channels.erase c }
      let s2 := s1.setLocal t Slot.empty
      closeChan s2 c

/-- `DataService.shutdown`: close every channel in the registry, clear the
registry, and replace `self._data_request_local` by a fresh
`threading.local()` (which empties every thread's slot). -/
def DataService.shutdown (s : DataService) : DataService :=
  let s1 := s.channels.foldl closeChan s
  { s1 with channels := [], locals := fun _ => Slot.empty }

/-- The states a `DataService` can reach from construction through any
sequence of its public operations, invoked from arbitrary threads. -/
inductive Reachable : DataService → Prop where
  | init : Reachable DataService.init
  | get_data {s : DataService} (t : Nat) :
      Reachable s → Reachable (s.get_data t).2
  | get_bblfsh {s : DataService} (t : Nat) :
      Reachable s → Reachable (s.get_bblfsh t).2
  | close_channel {s : DataService} (t : Nat) :
      Reachable s → Reachable (s.close_channel t)
  | shutdown {s : DataService} :
      Reachable s → Reachable s.shutdown

/-- The outcome of a wrapped analyzer invocation, as seen by
`_handle_rpc_errors`: a normal return value, a `grpc.RpcError` (the only
exception class the wrapper catches), or any other exception.  Exceptions
are identified by a number so that "the original exception object
unchanged" is expressible. -/
inductive RpcOutcome (α : Type) where
  | ok : α → RpcOutcome α
  | rpcError : Nat → RpcOutcome α
  | otherError : Nat → RpcOutcome α
  deriving Repr, DecidableEq

/-- `_handle_rpc_errors`, executed by thread `t`: run the wrapped call
(which may itself read and write the `DataService` state); on
`grpc.RpcError` call `data_service.close_channel()` and re-raise the same
exception (`raise e from None`); any other outcome passes through
untouched. -/
def handle_rpc_errors {α : Type}
    (func : DataService → RpcOutcome α × DataService) (t : Nat)
    (s : DataService) : RpcOutcome α × DataService :=
  match func s with
  | (RpcOutcome.ok a, s1) => (RpcOutcome.ok a, s1)
  | (RpcOutcome.rpcError e, s1) => (RpcOutcome.rpcError e, s1.close_channel t)
  | (RpcOutcome.otherError e, s1) => (RpcOutcome.otherError e, s1)

/-- Modelled from the spec: `GARBAGE_PATTERN` from
`lookout.core.garbage_exclusion` (not part of the sources in scope), "a
fixed glob/regex pattern identifying generated/vendored/garbage paths".
Its exact text is irrelevant to every claim; it is kept opaque. -/
def GARBAGE_PATTERN : String := "GARBAGE_PATTERN"

/-- `ChangesRequest` protobuf message, generic over the revision-pointer
payload type `P` (`ReferencePointer.to_pb()` values). -/
structure ChangesRequest (P : Type) where
  base : P
  head : P
  exclude_pattern : String
  exclude_vendored : Bool
  want_contents : Bool
  want_language : Bool
  want_uast : Bool

/-- `FilesRequest` protobuf message. -/
structure FilesRequest (P : Type) where
  revision : P
  exclude_pattern : String
  exclude_vendored : Bool
  want_contents : Bool
  want_language : Bool
  want_uast : Bool

/-- The gRPC `DataStub`, abstracted to the two server-streaming calls the
request composer issues; a response stream is modelled as the list of
records the service delivers, in delivery order. -/
structure DataStub (P C F : Type) where
  GetChanges : ChangesRequest P → List C
  GetFiles : FilesRequest P → List F

/-- The request object built by `request_changes` (lines 317-322): pointer
pair, fixed exclusion policy, and the want-flags, with `want_language`
derived as `contents or uast`. -/
def changes_request {P : Type} (ptr_from ptr_to : P)
    (contents uast : Bool) : ChangesRequest P :=
  { base := ptr_from
    head := ptr_to
    exclude_pattern := GARBAGE_PATTERN
    exclude_vendored := true
    want_contents := contents
    want_language := contents || uast
    want_uast := uast }

/-- The request object built by `request_files` (lines 336-341). -/
def files_request {P : Type} (ptr : P) (contents uast : Bool) :
    FilesRequest P :=
  { revision := ptr
    exclude_pattern := GARBAGE_PATTERN
    exclude_vendored := true
    want_contents := contents
    want_language := contents || uast
    want_uast := uast }

/-- `request_changes`: issue `stub.GetChanges` on the built request and,
when `unicode` is set, map `BytesToUnicodeConverter.convert_change`
(external collaborator, abstracted as `convert_change`) over the stream. -/
def request_changes {P C F : Type} (stub : DataStub P C F)
    (convert_change : C → C) (ptr_from ptr_to : P)
    (contents uast unicode : Bool) : List C :=
  let changes := stub.GetChanges (changes_request ptr_from ptr_to contents uast)
  if unicode then changes.map convert_change else changes

/-- `request_files`: issue `stub.GetFiles` on the built request and, when
`unicode` is set, map `BytesToUnicodeConverter.convert_file` over the
stream. -/
def request_files {P C F : Type} (stub : DataStub P C F)
    (convert_file : F → F) (ptr : P)
    (contents uast unicode : Bool) : List F :=
  let files := stub.GetFiles (files_request ptr contents uast)
  if unicode then files.map convert_file else files

/-- One entry of the Babelfish `SupportedLanguages` RPC response: a driver
language name and its installed version (the `packaging.version.Version`
parse of the version string is abstracted to the string itself). -/
structure Driver where
  language : String
  version : String

/-- A parsed `packaging.requirements.Requirement`: the external `packaging`
library is abstracted to the data `check_bblfsh_driver_versions` consumes —
the requirement name, the textual form of its specifier (used in the error
messages), and the predicate `ver in req.specifier` (version-range
membership, decided by `packaging`). -/
structure Requirement where
  name : String
  specifier : String
  satisfies : String → Bool

/-- The dict comprehension of line 84:
`{driver.language: Version(driver.version) for driver in existing}` —
an association list where a later driver entry overwrites an earlier one
with the same language. -/
def dictInsert (m : List (String × String)) (k v : String) :
    List (String × String) :=
  if m.any (fun p => p.1 == k) then
    m.map (fun p => if p.1 == k then (k, v) else p)
  else m ++ [(k, v)]

def buildExisting (drivers : List Driver) : List (String × String) :=
  drivers.foldl (fun m d => dictInsert m d.language d.version) []

/-- One iteration of the `for reqstr in versions` loop of
`check_bblfsh_driver_versions` (lines 86-94): look the requirement's name
up in `existing`; on `KeyError` append a "not installed" entry; on a
version outside the specifier append a "does not satisfy" entry. -/
def mismatchStep (existing : List (String × String))
    (mismatched : List (String × String)) (req : Requirement) :
    List (String × String) :=
  match existing.lookup req.name with
  | none =>
      mismatched ++ [(req.name, "not installed, but required " ++ req.specifier)]
  | some ver =>
      if req.satisfies ver then mismatched
      else mismatched ++ [(req.name, ver ++ " does not satisfy " ++ req.specifier)]

/-- `DataService.check_bblfsh_driver_versions`: build the installed-version
mapping from the `SupportedLanguages` response, collect every mismatch,
and raise `UnsatisfiedDriverVersionError(mismatched)` (modelled as
`Except.error mismatched`) exactly when the collected list is nonempty. -/
def check_bblfsh_driver_versions (languages : List Driver)
    (versions : List Requirement) :
    Except (List (String × String)) Unit :=
  let existing := buildExisting languages
  let mismatched := versions.foldl (mismatchStep existing) []
  if mismatched.isEmpty then Except.ok () else Except.error mismatched

/-- Whether one requirement is met by the installed mapping: its language
is present and the installed version satisfies the specifier. -/
def reqMetB (existing : List (String × String)) (req : Requirement) : Bool :=
  match existing.lookup req.name with
  | none => false
  | some ver => req.satisfies ver

/-- The mismatch entry one requirement contributes (none when met). -/
def mismatchEntry (existing : List (String × String)) (req : Requirement) :
    Option (String × String) :=
  match existing.lookup req.name with
  | none =>
      some (req.name, "not installed, but required " ++ req.specifier)
  | some ver =>
      if req.satisfies ver then none
      else some (req.name, ver ++ " does not satisfy " ++ req.specifier)

/-- `AnalyzerContextManager` state, reduced to the field the lifecycle
claims are about: `self._lookout_sdk`, which is `None` outside the `with`
block and a `LookoutSDK` handle (type parameter `SDK`) inside it.  The
other attributes set in `__init__`/`__enter__` (model repository, event
listener, port, `DataService`) are external collaborators. -/
structure AnalyzerContextManager (SDK : Type) where
  lookout_sdk : Option SDK

/-- `AnalyzerContextManager.__init__` ends with `self._lookout_sdk = None`. -/
def AnalyzerContextManager.init (SDK : Type) : AnalyzerContextManager SDK :=
  ⟨none⟩

/-- `AnalyzerContextManager.__enter__`: after starting the listener it runs
`self._lookout_sdk = LookoutSDK()` and returns `self`. -/
def AnalyzerContextManager.enter {SDK : Type}
    (ctx : AnalyzerContextManager SDK) (sdk : SDK) :
    AnalyzerContextManager SDK :=
  { ctx with lookout_sdk := some sdk }

/-- `AnalyzerContextManager.__exit__`: its first statement is
`self._lookout_sdk = None` (the listener/repository/data-service teardown
that follows touches only external collaborators). -/
def AnalyzerContextManager.exit {SDK : Type}
    (ctx : AnalyzerContextManager SDK) : AnalyzerContextManager SDK :=
  { ctx with lookout_sdk := none }

/-- `AnalyzerContextManager.review`: raise `AttributeError` when
`self._lookout_sdk` is falsy (it is either `None` or a `LookoutSDK`
instance, which is truthy), otherwise delegate to
`self._lookout_sdk.review(...)`, modelled by the call `sdk_review`. -/
def AnalyzerContextManager.review {SDK R : Type}
    (ctx : AnalyzerContextManager SDK) (sdk_review : SDK → R) :
    Except String R :=
  match ctx.lookout_sdk with
  | none =>
      Except.error "AnalyzerContextManager.review() is available only inside `with`"
  | some sdk => Except.ok (sdk_review sdk)

/-- `AnalyzerContextManager.push`: same shape as `review`, delegating to
`self._lookout_sdk.push(...)`. -/
def AnalyzerContextManager.push {SDK R : Type}
    (ctx : AnalyzerContextManager SDK) (sdk_push : SDK → R) :
    Except String R :=
  match ctx.lookout_sdk with
  | none =>
      Except.error "AnalyzerContextManager.push() is available only inside `with` statement"
  | some sdk => Except.ok (sdk_push sdk)

/-! ### Operation equations -/

theorem get_channel_of_some {s : DataService} {t : Nat} {c : Nat}
    (h : (s.locals t).channel = some c) : s.get_channel t = (c, s) := by
  unfold DataService.get_channel
  rw [h]

theorem get_channel_of_none {s : DataService} {t : Nat}
    (h : (s.locals t).channel = none) :
    s.get_channel t = (s.nextChannel,
      { locals := fun u => if u = t then
            { s.locals t with channel := some s.nextChannel }
          else s.locals u
        channels := s.channels ++ [s.nextChannel]
        nextChannel := s.nextChannel + 1
        closed := s.closed }) := by
  unfold DataService.get_channel DataService.setLocal
  rw [h]

theorem get_data_of_some {s : DataService} {t : Nat} {c : Nat}
    (h : (s.locals t).data_stub = some c) : s.get_data t = (c, s) := by
  unfold DataService.get_data
  rw [h]

theorem get_data_of_none {s : DataService} {t : Nat}
    (h : (s.locals t).data_stub = none) :
    s.get_data t = ((s.get_channel t).1,
      (s.get_channel t).2.setLocal t
        { (s.get_channel t).2.locals t with
            data_stub := some (s.get_channel t).1 }) := by
  unfold DataService.get_data
  rw [h]

theorem get_bblfsh_of_some {s : DataService} {t : Nat} {c : Nat}
    (h : (s.locals t).bblfsh_stub = some c) : s.get_bblfsh t = (c, s) := by
  unfold DataService.get_bblfsh
  rw [h]

theorem get_bblfsh_of_none {s : DataService} {t : Nat}
    (h : (s.locals t).bblfsh_stub = none) :
    s.get_bblfsh t = ((s.get_channel t).1,
      (s.get_channel t).2.setLocal t
        { (s.get_channel t).2.locals t with
            bblfsh_stub := some (s.get_channel t).1 }) := by
  unfold DataService.get_bblfsh
  rw [h]

theorem close_channel_of_none {s : DataService} {t : Nat}
    (h : (s.locals t).channel = none) : s.close_channel t = s := by
  unfold DataService.close_channel
  rw [h]

theorem close_channel_of_some {s : DataService} {t : Nat} {c : Nat}
    (h : (s.locals t).channel = some c) :
    s.close_channel t =
      closeChan (DataService.setLocal
        { s with channels := s.channels.erase c } t Slot.empty) c := by
  unfold DataService.close_channel
  rw [h]

/-! ### The session invariant -/

/-- The invariant maintained by every `DataService` operation: stubs are
bound to their thread's current channel, a thread's channel is open,
registered and unique to that thread, the registry has no duplicates, and
identifiers at or above `nextChannel` have never been closed. -/
structure Inv (s : DataService) : Prop where
  ds_ch : ∀ t c, (s.locals t).data_stub = some c → (s.locals t).channel = some c
  bs_ch : ∀ t c, (s.locals t).bblfsh_stub = some c → (s.locals t).channel = some c
  ch_mem : ∀ t c, (s.locals t).channel = some c → c ∈ s.channels
  mem_lt : ∀ c, c ∈ s.channels → c < s.nextChannel
  mem_open : ∀ c, c ∈ s.channels → s.closed c = 0
  lt_closed : ∀ c, s.nextChannel ≤ c → s.closed c = 0
  nodup : s.channels.Nodup
  uniq : ∀ t u c, (s.locals t).channel = some c →
    (s.locals u).channel = some c → t = u

theorem inv_init : Inv DataService.init := by
  constructor <;> simp [DataService.init, Slot.empty]

theorem setLocal_locals (s : DataService) (t : Nat) (slot : Slot)
    (u : Nat) :
    (s.setLocal t slot).locals u = if u = t then slot else s.locals u := rfl

theorem setLocal_channels (s : DataService) (t : Nat) (slot : Slot) :
    (s.setLocal t slot).channels = s.channels := rfl

theorem setLocal_nextChannel (s : DataService) (t : Nat) (slot : Slot) :
    (s.setLocal t slot).nextChannel = s.nextChannel := rfl

theorem get_channel_none_fst {s : DataService} {t : Nat}
    (h : (s.locals t).channel = none) :
    (s.get_channel t).1 = s.nextChannel := by
  rw [get_channel_of_none h]

theorem get_channel_none_locals {s : DataService} {t : Nat}
    (h : (s.locals t).channel = none) (u : Nat) :
    (s.get_channel t).2.locals u =
      if u = t then { s.locals t with channel := some s.nextChannel }
      else s.locals u := by
  rw [get_channel_of_none h]

theorem get_channel_none_channels {s : DataService} {t : Nat}
    (h : (s.locals t).channel = none) :
    (s.get_channel t).2.channels = s.channels ++ [s.nextChannel] := by
  rw [get_channel_of_none h]

theorem get_channel_none_nextChannel {s : DataService} {t : Nat}
    (h : (s.locals t).channel = none) :
    (s.get_channel t).2.nextChannel = s.nextChannel + 1 := by
  rw [get_channel_of_none h]

theorem get_channel_none_closed {s : DataService} {t : Nat}
    (h : (s.locals t).channel = none) :
    (s.get_channel t).2.closed = s.closed := by
  rw [get_channel_of_none h]

theorem Inv.get_channel {s : DataService} (h : Inv s) (t : Nat) :
    Inv (s.get_channel t).2 := by
  cases hc : (s.locals t).channel with
  | some c => rw [get_channel_of_some hc]; exact h
  | none =>
      have hL := get_channel_none_locals hc
      have hC := get_channel_none_channels hc
      have hN := get_channel_none_nextChannel hc
      have hX := get_channel_none_closed hc
      have hfresh : s.nextChannel ∉ s.channels := fun hmem =>
        absurd (h.mem_lt _ hmem) (lt_irrefl _)
      constructor
      · intro u c hu
        rw [hL u] at hu ⊢
        by_cases hut : u = t
        · rw [if_pos hut] at hu
          have h2 := h.ds_ch t c hu
          rw [hc] at h2
          cases h2
        · rw [if_neg hut] at hu ⊢
          exact h.ds_ch u c hu
      · intro u c hu
        rw [hL u] at hu ⊢
        by_cases hut : u = t
        · rw [if_pos hut] at hu
          have h2 := h.bs_ch t c hu
          rw [hc] at h2
          cases h2
        · rw [if_neg hut] at hu ⊢
          exact h.bs_ch u c hu
      · intro u c hu
        rw [hL u] at hu
        rw [hC]
        by_cases hut : u = t
        · rw [if_pos hut] at hu
          have hcc : s.nextChannel = c := Option.some.inj hu
          rw [← hcc]
          simp
        · rw [if_neg hut] at hu
          exact List.mem_append_left _ (h.ch_mem u c hu)
      · intro c hmem
        rw [hC] at hmem
        rw [hN]
        rcases List.mem_append.1 hmem with hm | hm
        · exact Nat.lt_succ_of_lt (h.mem_lt c hm)
        · rw [List.mem_singleton] at hm
          omega
      · intro c hmem
        rw [hC] at hmem
        rw [hX]
        rcases List.mem_append.1 hmem with hm | hm
        · exact h.mem_open c hm
        · rw [List.mem_singleton] at hm
          rw [hm]
          exact h.lt_closed _ le_rfl
      · intro c hle
        rw [hN] at hle
        rw [hX]
        exact h.lt_closed c (by omega)
      · rw [hC]
        simp only [List.nodup_append, List.nodup_singleton, true_and]
        exact ⟨h.nodup, by simpa using hfresh⟩
      · intro u v c hu hv
        rw [hL u] at hu
        rw [hL v] at hv
        by_cases hut : u = t <;> by_cases hvt : v = t
        · rw [hut, hvt]
        · rw [if_pos hut] at hu
          rw [if_neg hvt] at hv
          have hcc : s.nextChannel = c := Option.some.inj hu
          rw [← hcc] at hv
          exact absurd (h.mem_lt _ (h.ch_mem v _ hv)) (lt_irrefl _)
        · rw [if_pos hvt] at hv
          rw [if_neg hut] at hu
          have hcc : s.nextChannel = c := Option.some.inj hv
          rw [← hcc] at hu
          exact absurd (h.mem_lt _ (h.ch_mem u _ hu)) (lt_irrefl _)
        · rw [if_neg hut] at hu
          rw [if_neg hvt] at hv
          exact h.uniq u v c hu hv

/-- The slot of the calling thread after `_get_channel`: the channel is the
returned one, the stub attributes are untouched. -/
theorem get_channel_slot (s : DataService) (t : Nat) :
    ((s.get_channel t).2.locals t).channel = some (s.get_channel t).1 ∧
    ((s.get_channel t).2.locals t).data_stub = (s.locals t).data_stub ∧
    ((s.get_channel t).2.locals t).bblfsh_stub = (s.locals t).bblfsh_stub := by
  cases hc : (s.locals t).channel with
  | some c => rw [get_channel_of_some hc]; exact ⟨hc, rfl, rfl⟩
  | none =>
      rw [get_channel_none_locals hc t, get_channel_none_fst hc, if_pos rfl]
      exact ⟨rfl, rfl, rfl⟩

/-- Setting a thread's `data_stub` to a stub bound to that thread's own
channel preserves the invariant. -/
theorem Inv.set_data_stub {s : DataService} (h : Inv s) (t : Nat)
    (c : Nat) (hc : (s.locals t).channel = some c) :
    Inv (s.setLocal t { s.locals t with data_stub := some c }) := by
  have hch : ∀ u, ((s.setLocal t
      { s.locals t with data_stub := some c }).locals u).channel =
      (s.locals u).channel := by
    intro u
    rw [setLocal_locals]
    by_cases hut : u = t
    · rw [if_pos hut, hut]
    · rw [if_neg hut]
  constructor
  · intro u c' hu
    rw [hch u]
    rw [setLocal_locals] at hu
    by_cases hut : u = t
    · rw [if_pos hut] at hu
      have hcc : c = c' := Option.some.inj hu
      rw [← hcc, hut]
      exact hc
    · rw [if_neg hut] at hu
      exact h.ds_ch u c' hu
  · intro u c' hu
    rw [hch u]
    rw [setLocal_locals] at hu
    by_cases hut : u = t
    · rw [if_pos hut] at hu
      rw [hut]
      exact h.bs_ch t c' hu
    · rw [if_neg hut] at hu
      exact h.bs_ch u c' hu
  · intro u c' hu
    rw [hch u] at hu
    exact h.ch_mem u c' hu
  · exact h.mem_lt
  · exact h.mem_open
  · exact h.lt_closed
  · exact h.nodup
  · intro u v c' hu hv
    rw [hch u] at hu
    rw [hch v] at hv
    exact h.uniq u v c' hu hv

/-- Setting a thread's `bblfsh_stub` to a stub bound to that thread's own
channel preserves the invariant. -/
theorem Inv.set_bblfsh_stub {s : DataService} (h : Inv s) (t : Nat)
    (c : Nat) (hc : (s.locals t).channel = some c) :
    Inv (s.setLocal t { s.locals t with bblfsh_stub := some c }) := by
  have hch : ∀ u, ((s.setLocal t
      { s.locals t with bblfsh_stub := some c }).locals u).channel =
      (s.locals u).channel := by
    intro u
    rw [setLocal_locals]
    by_cases hut : u = t
    · rw [if_pos hut, hut]
    · rw [if_neg hut]
  constructor
  · intro u c' hu
    rw [hch u]
    rw [setLocal_locals] at hu
    by_cases hut : u = t
    · rw [if_pos hut] at hu
      rw [hut]
      exact h.ds_ch t c' hu
    · rw [if_neg hut] at hu
      exact h.ds_ch u c' hu
  · intro u c' hu
    rw [hch u]
    rw [setLocal_locals] at hu
    by_cases hut : u = t
    · rw [if_pos hut] at hu
      have hcc : c = c' := Option.some.inj hu
      rw [← hcc, hut]
      exact hc
    · rw [if_neg hut] at hu
      exact h.bs_ch u c' hu
  · intro u c' hu
    rw [hch u] at hu
    exact h.ch_mem u c' hu
  · exact h.mem_lt
  · exact h.mem_open
  · exact h.lt_closed
  · exact h.nodup
  · intro u v c' hu hv
    rw [hch u] at hu
    rw [hch v] at hv
    exact h.uniq u v c' hu hv

theorem Inv.get_data {s : DataService} (h : Inv s) (t : Nat) :
    Inv (s.get_data t).2 := by
  cases hd : (s.locals t).data_stub with
  | some c => rw [get_data_of_some hd]; exact h
  | none =>
      rw [get_data_of_none hd]
      exact (h.get_channel t).set_data_stub t _ (get_channel_slot s t).1

theorem Inv.get_bblfsh {s : DataService} (h : Inv s) (t : Nat) :
    Inv (s.get_bblfsh t).2 := by
  cases hd : (s.locals t).bblfsh_stub with
  | some c => rw [get_bblfsh_of_some hd]; exact h
  | none =>
      rw [get_bblfsh_of_none hd]
      exact (h.get_channel t).set_bblfsh_stub t _ (get_channel_slot s t).1

theorem close_channel_some_locals {s : DataService} {t : Nat}
    {c : Nat} (hc : (s.locals t).channel = some c) (u : Nat) :
    (s.close_channel t).locals u = if u = t then Slot.empty else s.locals u := by
  rw [close_channel_of_some hc]
  rfl

theorem close_channel_some_channels {s : DataService} {t : Nat}
    {c : Nat} (hc : (s.locals t).channel = some c) :
    (s.close_channel t).channels = s.channels.erase c := by
  rw [close_channel_of_some hc]
  rfl

theorem close_channel_some_nextChannel {s : DataService} {t : Nat}
    {c : Nat} (hc : (s.locals t).channel = some c) :
    (s.close_channel t).nextChannel = s.nextChannel := by
  rw [close_channel_of_some hc]
  rfl

theorem close_channel_some_closed {s : DataService} {t : Nat}
    {c : Nat} (hc : (s.locals t).channel = some c) (d : Nat) :
    (s.close_channel t).closed d =
      if d = c then s.closed d + 1 else s.closed d := by
  rw [close_channel_of_some hc]
  rfl

theorem Inv.close_channel {s : DataService} (h : Inv s) (t : Nat) :
    Inv (s.close_channel t) := by
  cases hc : (s.locals t).channel with
  | none => rw [close_channel_of_none hc]; exact h
  | some c =>
      have hL := close_channel_some_locals hc
      have hC := close_channel_some_channels hc
      have hN := close_channel_some_nextChannel hc
      have hX := close_channel_some_closed hc
      have hmem : c ∈ s.channels := h.ch_mem t c hc
      have hnotmem : c ∉ s.channels.erase c := h.nodup.not_mem_erase
      constructor
      · intro u c' hu
        rw [hL u] at hu ⊢
        by_cases hut : u = t
        · rw [if_pos hut] at hu
          cases hu
        · rw [if_neg hut] at hu ⊢
          exact h.ds_ch u c' hu
      · intro u c' hu
        rw [hL u] at hu ⊢
        by_cases hut : u = t
        · rw [if_pos hut] at hu
          cases hu
        · rw [if_neg hut] at hu ⊢
          exact h.bs_ch u c' hu
      · intro u c' hu
        rw [hL u] at hu
        rw [hC]
        by_cases hut : u = t
        · rw [if_pos hut] at hu
          cases hu
        · rw [if_neg hut] at hu
          have hmem' : c' ∈ s.channels := h.ch_mem u c' hu
          have hne : c' ≠ c := by
            intro hcc
            rw [hcc] at hu
            exact hut (h.uniq u t c hu hc)
          exact (List.mem_erase_of_ne hne).2 hmem'
      · intro c' hmem'
        rw [hC] at hmem'
        rw [hN]
        exact h.mem_lt c' (List.mem_of_mem_erase hmem')
      · intro c' hmem'
        rw [hC] at hmem'
        rw [hX]
        have hne : c' ≠ c := by
          intro hcc
          rw [hcc] at hmem'
          exact hnotmem hmem'
        rw [if_neg hne]
        exact h.mem_open c' (List.mem_of_mem_erase hmem')
      · intro c' hle
        rw [hN] at hle
        rw [hX]
        have hne : c' ≠ c := by
          intro hcc
          have h2 := h.mem_lt c hmem
          omega
        rw [if_neg hne]
        exact h.lt_closed c' hle
      · rw [hC]
        exact h.nodup.erase c
      · intro u v c' hu hv
        rw [hL u] at hu
        rw [hL v] at hv
        by_cases hut : u = t
        · rw [if_pos hut] at hu
          cases hu
        · by_cases hvt : v = t
          · rw [if_pos hvt] at hv
            cases hv
          · rw [if_neg hut] at hu
            rw [if_neg hvt] at hv
            exact h.uniq u v c' hu hv

theorem foldl_closeChan_closed (l : List Nat) (s : DataService)
    (d : Nat) :
    (l.foldl closeChan s).closed d = s.closed d + l.count d := by
  induction l generalizing s with
  | nil => simp
  | cons a l ih =>
      rw [List.foldl_cons, ih, List.count_cons]
      have hcc : (closeChan s a).closed d =
          if d = a then s.closed d + 1 else s.closed d := rfl
      rw [hcc]
      by_cases hda : d = a <;> simp [hda] <;> omega

theorem foldl_closeChan_channels (l : List Nat) (s : DataService) :
    (l.foldl closeChan s).channels = s.channels := by
  induction l generalizing s with
  | nil => rfl
  | cons a l ih => rw [List.foldl_cons, ih]; rfl

theorem foldl_closeChan_nextChannel (l : List Nat) (s : DataService) :
    (l.foldl closeChan s).nextChannel = s.nextChannel := by
  induction l generalizing s with
  | nil => rfl
  | cons a l ih => rw [List.foldl_cons, ih]; rfl

theorem foldl_closeChan_locals (l : List Nat) (s : DataService) :
    (l.foldl closeChan s).locals = s.locals := by
  induction l generalizing s with
  | nil => rfl
  | cons a l ih => rw [List.foldl_cons, ih]; rfl

theorem shutdown_locals (s : DataService) (u : Nat) :
    s.shutdown.locals u = Slot.empty := rfl

theorem shutdown_channels (s : DataService) : s.shutdown.channels = [] := rfl

theorem shutdown_nextChannel (s : DataService) :
    s.shutdown.nextChannel = s.nextChannel := by
  unfold DataService.shutdown
  exact foldl_closeChan_nextChannel s.channels s

theorem shutdown_closed (s : DataService) (d : Nat) :
    s.shutdown.closed d = s.closed d + s.channels.count d := by
  unfold DataService.shutdown
  exact foldl_closeChan_closed s.channels s d

theorem Inv.shutdown {s : DataService} (h : Inv s) : Inv s.shutdown := by
  constructor
  · intro u c hu
    rw [shutdown_locals] at hu
    cases hu
  · intro u c hu
    rw [shutdown_locals] at hu
    cases hu
  · intro u c hu
    rw [shutdown_locals] at hu
    cases hu
  · intro c hmem
    rw [shutdown_channels] at hmem
    cases hmem
  · intro c hmem
    rw [shutdown_channels] at hmem
    cases hmem
  · intro c hle
    rw [shutdown_nextChannel] at hle
    rw [shutdown_closed]
    have hcs : c ∉ s.channels := by
      intro hmem
      have h2 := h.mem_lt c hmem
      omega
    rw [List.count_eq_zero.2 hcs, h.lt_closed c hle]
  · rw [shutdown_channels]
    exact List.nodup_nil
  · intro u v c hu _
    rw [shutdown_locals] at hu
    cases hu

/-- Every reachable state of a `DataService` satisfies the invariant. -/
theorem reachable_inv {s : DataService} (h : Reachable s) : Inv s := by
  induction h with
  | init => exact inv_init
  | get_data t _ ih => exact ih.get_data t
  | get_bblfsh t _ ih => exact ih.get_bblfsh t
  | close_channel t _ ih => exact ih.close_channel t
  | shutdown _ ih => exact ih.shutdown

/-! ### Claim theorems -/

/-- C1: for every decorated analyzer call, if the wrapped invocation ends
in a `grpc.RpcError` the wrapper calls `close_channel()` exactly once for
the calling thread (the final state is `close_channel` applied once to the
state the call left behind) and re-raises the very same exception, with no
wrapping, swallowing or retry; if the wrapped invocation succeeds, its
result and the state are returned unchanged and `close_channel` is not
called. -/
theorem handle_rpc_errors_spec {α : Type}
    (func : DataService → RpcOutcome α × DataService) (t : Nat)
    (s : DataService) :
    (∀ e s1, func s = (RpcOutcome.rpcError e, s1) →
      handle_rpc_errors func t s = (RpcOutcome.rpcError e, s1.close_channel t)) ∧
    (∀ a s1, func s = (RpcOutcome.ok a, s1) →
      handle_rpc_errors func t s = (RpcOutcome.ok a, s1)) := by
  constructor <;> intro x s1 hf <;> unfold handle_rpc_errors <;> rw [hf]

/-- Witness for C1 at a concrete failing call on thread 0. -/
theorem handle_rpc_errors_spec_witness :
    handle_rpc_errors (fun s => ((RpcOutcome.rpcError 7 : RpcOutcome Nat), s))
        0 DataService.init =
      (RpcOutcome.rpcError 7, DataService.init.close_channel 0) :=
  (handle_rpc_errors_spec
    (fun s => ((RpcOutcome.rpcError 7 : RpcOutcome Nat), s))
    0 DataService.init).1 7 DataService.init rfl

/-- C3: for all four combinations of the `contents` and `uast` flags, the
requests built by `request_changes` and `request_files` carry
`want_language = contents OR uast`, `want_contents = contents` and
`want_uast = uast`; both builders are total functions, so requesting
neither contents nor UAST is legal and produces a request (with all three
want-flags false) rather than an error. -/
theorem request_flags_spec (P : Type) (pf pt p : P) (contents uast : Bool) :
    ((changes_request pf pt contents uast).want_language = (contents || uast) ∧
     (changes_request pf pt contents uast).want_contents = contents ∧
     (changes_request pf pt contents uast).want_uast = uast) ∧
    ((files_request p contents uast).want_language = (contents || uast) ∧
     (files_request p contents uast).want_contents = contents ∧
     (files_request p contents uast).want_uast = uast) :=
  ⟨⟨rfl, rfl, rfl⟩, ⟨rfl, rfl, rfl⟩⟩

/-- C7: with the `unicode` flag enabled, `request_changes` and
`request_files` yield exactly the element-wise conversion of the stream
the service produced, in the same order and of the same length (so streams
of length 0 and length N convert identically element-by-element); with the
flag disabled they return the service records unmodified. -/
theorem request_unicode_map_spec (P C F : Type) (stub : DataStub P C F)
    (convert_change : C → C) (convert_file : F → F) (pf pt p : P)
    (contents uast : Bool) :
    (∀ i : Nat,
      (request_changes stub convert_change pf pt contents uast true)[i]? =
        ((stub.GetChanges (changes_request pf pt contents uast))[i]?).map
          convert_change) ∧
    (request_changes stub convert_change pf pt contents uast true).length =
      (stub.GetChanges (changes_request pf pt contents uast)).length ∧
    request_changes stub convert_change pf pt contents uast false =
      stub.GetChanges (changes_request pf pt contents uast) ∧
    (∀ i : Nat,
      (request_files stub convert_file p contents uast true)[i]? =
        ((stub.GetFiles (files_request p contents uast))[i]?).map
          convert_file) ∧
    (request_files stub convert_file p contents uast true).length =
      (stub.GetFiles (files_request p contents uast)).length ∧
    request_files stub convert_file p contents uast false =
      stub.GetFiles (files_request p contents uast) := by
  refine ⟨?_, ?_, rfl, ?_, ?_, rfl⟩ <;>
    simp [request_changes, request_files]

/-- C10: `review()` and `push()` raise `AttributeError` immediately when
the SDK handle is unset — which is exactly the situation before
`__enter__` (the state `__init__` leaves) and after `__exit__` — and in
that case the result does not depend on the underlying SDK command, which
is therefore never invoked. -/
theorem review_push_outside_with_spec (SDK R : Type)
    (ctx : AnalyzerContextManager SDK) (f g : SDK → R) :
    (ctx.lookout_sdk = none →
      ctx.review f =
        Except.error "AnalyzerContextManager.review() is available only inside `with`" ∧
      ctx.review f = ctx.review g ∧
      ctx.push f =
        Except.error "AnalyzerContextManager.push() is available only inside `with` statement" ∧
      ctx.push f = ctx.push g) ∧
    (AnalyzerContextManager.init SDK).review f =
      Except.error "AnalyzerContextManager.review() is available only inside `with`" ∧
    ctx.exit.review f =
      Except.error "AnalyzerContextManager.review() is available only inside `with`" ∧
    (AnalyzerContextManager.init SDK).push f =
      Except.error "AnalyzerContextManager.push() is available only inside `with` statement" ∧
    ctx.exit.push f =
      Except.error "AnalyzerContextManager.push() is available only inside `with` statement" := by
  refine ⟨?_, rfl, rfl, rfl, rfl⟩
  intro h
  unfold AnalyzerContextManager.review AnalyzerContextManager.push
  rw [h]
  exact ⟨rfl, rfl, rfl, rfl⟩

/-- Witness for C10: a freshly constructed context manager rejects
`review()`. -/
theorem review_push_outside_with_spec_witness :
    (AnalyzerContextManager.init Nat).review (fun n => n + 1) =
      Except.error "AnalyzerContextManager.review() is available only inside `with`" :=
  ((review_push_outside_with_spec Nat Nat (AnalyzerContextManager.init Nat)
    (fun n => n + 1) (fun n => n)).1 rfl).1

/-- C2 counterexample: after the first `get_data()` call on a fresh
service, thread 0's slot holds the channel and the data stub but no
Babelfish stub — a partially populated slot, so the slot is neither empty
nor fully populated with both derived stubs, contrary to the claim. -/
theorem slot_partial_after_first_get_data :
    ¬(((DataService.init.get_data 0).2.locals 0 = Slot.empty) ∨
      (((DataService.init.get_data 0).2.locals 0).channel.isSome ∧
       ((DataService.init.get_data 0).2.locals 0).data_stub.isSome ∧
       ((DataService.init.get_data 0).2.locals 0).bblfsh_stub.isSome)) := by
  decide

/-- C2 (amended): in every reachable state each thread holds at most one
live channel: any stub present in the thread's slot is bound to the slot's
current channel (so both stubs, when present, share it), that channel is
registered and not closed, and no other thread's slot holds it; moreover
`get_data` followed by `get_bblfsh` on the same thread return stubs bound
to the same channel.  A slot may however be partially populated: each
getter creates only its own stub (plus the channel if absent); the other
stub appears on its own first call, bound to the same channel. -/
theorem per_thread_channel_invariant {s : DataService} (h : Reachable s)
    (t : Nat) :
    (∀ c, (s.locals t).data_stub = some c → (s.locals t).channel = some c) ∧
    (∀ c, (s.locals t).bblfsh_stub = some c → (s.locals t).channel = some c) ∧
    (∀ c, (s.locals t).channel = some c → c ∈ s.channels ∧ s.closed c = 0) ∧
    (∀ u c, (s.locals t).channel = some c → (s.locals u).channel = some c →
      t = u) ∧
    (s.get_data t).1 = ((s.get_data t).2.get_bblfsh t).1 := by
  have hi := reachable_inv h
  refine ⟨fun c => hi.ds_ch t c, fun c => hi.bs_ch t c,
    fun c hc => ⟨hi.ch_mem t c hc, hi.mem_open c (hi.ch_mem t c hc)⟩,
    fun u c hc hu => hi.uniq t u c hc hu, ?_⟩
  cases hd : (s.locals t).data_stub with
  | some d =>
      rw [get_data_of_some hd]
      have hch : (s.locals t).channel = some d := hi.ds_ch t d hd
      cases hb : (s.locals t).bblfsh_stub with
      | some b =>
          rw [get_bblfsh_of_some hb]
          have hcb := hi.bs_ch t b hb
          rw [hch] at hcb
          exact (Option.some.inj hcb)
      | none =>
          rw [get_bblfsh_of_none hb, get_channel_of_some hch]
  | none =>
      rw [get_data_of_none hd]
      cases hb : (s.locals t).bblfsh_stub with
      | some b =>
          have hch : (s.locals t).channel = some b := hi.bs_ch t b hb
          rw [get_channel_of_some hch]
          have hb2 : ((s.setLocal t
              { s.locals t with data_stub := some b }).locals t).bblfsh_stub =
              some b := by
            rw [setLocal_locals, if_pos rfl]
            exact hb
          rw [get_bblfsh_of_some hb2]
      | none =>
          have hb2 : (((s.get_channel t).2.setLocal t
              { (s.get_channel t).2.locals t with
                  data_stub := some (s.get_channel t).1 }).locals
                t).bblfsh_stub = none := by
            rw [setLocal_locals, if_pos rfl]
            show ((s.get_channel t).2.locals t).bblfsh_stub = none
            rw [(get_channel_slot s t).2.2]
            exact hb
          rw [get_bblfsh_of_none hb2]
          have hch2 : (((s.get_channel t).2.setLocal t
              { (s.get_channel t).2.locals t with
                  data_stub := some (s.get_channel t).1 }).locals
                t).channel = some (s.get_channel t).1 := by
            rw [setLocal_locals, if_pos rfl]
            show ((s.get_channel t).2.locals t).channel =
              some (s.get_channel t).1
            exact (get_channel_slot s t).1
          rw [get_channel_of_some hch2]

/-- Witness for C2 (amended) in the reachable state after one `get_data()`
on thread 0: the slot's data stub is bound to the slot's channel. -/
theorem per_thread_channel_invariant_witness :
    ((DataService.init.get_data 0).2.locals 0).channel = some 0 :=
  (per_thread_channel_invariant
    (Reachable.get_data 0 Reachable.init) 0).1 0 (by decide)

/-- C4: in every reachable state, when the calling thread has an open
channel `c`, `close_channel()` closes `c` exactly once (`c` was open, and
its close count becomes 1), removes it from the registry (leaving the
other channels), empties the thread's slot, and a subsequent `get_data()`
on that thread creates a fresh channel distinct from `c`; when the thread
has no open channel, `close_channel()` is a no-op returning the state
unchanged. -/
theorem close_channel_spec {s : DataService} (h : Reachable s) (t : Nat) :
    (∀ c, (s.locals t).channel = some c →
      s.closed c = 0 ∧
      (s.close_channel t).closed c = 1 ∧
      (s.close_channel t).channels = s.channels.erase c ∧
      c ∉ (s.close_channel t).channels ∧
      (s.close_channel t).locals t = Slot.empty ∧
      ((s.close_channel t).get_data t).1 = s.nextChannel ∧
      ((s.close_channel t).get_data t).1 ≠ c) ∧
    ((s.locals t).channel = none → s.close_channel t = s) := by
  have hi := reachable_inv h
  constructor
  · intro c hc
    have hopen : s.closed c = 0 := hi.mem_open c (hi.ch_mem t c hc)
    have hclosedc : (s.close_channel t).closed c = 1 := by
      rw [close_channel_some_closed hc c, if_pos rfl, hopen]
    have hchan := close_channel_some_channels hc
    have hnot : c ∉ (s.close_channel t).channels := by
      rw [hchan]
      exact hi.nodup.not_mem_erase
    have hloc : (s.close_channel t).locals t = Slot.empty := by
      rw [close_channel_some_locals hc t, if_pos rfl]
    have hds : ((s.close_channel t).locals t).data_stub = none := by
      rw [hloc]; rfl
    have hcn : ((s.close_channel t).locals t).channel = none := by
      rw [hloc]; rfl
    have h1 : ((s.close_channel t).get_data t).1 = s.nextChannel := by
      rw [get_data_of_none hds]
      show ((s.close_channel t).get_channel t).1 = s.nextChannel
      rw [get_channel_none_fst hcn, close_channel_some_nextChannel hc]
    have hlt : c < s.nextChannel := hi.mem_lt c (hi.ch_mem t c hc)
    exact ⟨hopen, hclosedc, hchan, hnot, hloc, h1, by rw [h1]; omega⟩
  · exact fun hn => close_channel_of_none hn

/-- Witness for C4 in the reachable state after one `get_data()` on
thread 0, whose channel is 0: closing it bumps its close count to 1. -/
theorem close_channel_spec_witness :
    ((DataService.init.get_data 0).2.close_channel 0).closed 0 = 1 :=
  ((close_channel_spec (Reachable.get_data 0 Reachable.init) 0).1
    0 (by decide)).2.1

/-- C5: in every reachable state, `shutdown()` closes every channel in the
registry exactly once — regardless of which thread opened it — and no
channel outside the registry (so threads that already closed their own
channel are unaffected), clears the registry and every thread's slot, and
is idempotent: an immediately repeated `shutdown()` closes no channel the
second time. -/
theorem shutdown_spec {s : DataService} (h : Reachable s) :
    (∀ c ∈ s.channels, s.shutdown.closed c = s.closed c + 1) ∧
    (∀ c, c ∉ s.channels → s.shutdown.closed c = s.closed c) ∧
    s.shutdown.channels = [] ∧
    (∀ t, s.shutdown.locals t = Slot.empty) ∧
    (∀ c, s.shutdown.shutdown.closed c = s.shutdown.closed c) := by
  have hi := reachable_inv h
  refine ⟨?_, ?_, shutdown_channels s, shutdown_locals s, ?_⟩
  · intro c hmem
    rw [shutdown_closed, List.count_eq_one_of_mem hi.nodup hmem]
  · intro c hmem
    rw [shutdown_closed, List.count_eq_zero.2 hmem]
    rfl
  · intro c
    rw [shutdown_closed s.shutdown c, shutdown_channels]
    simp

/-- Witness for C5 in the reachable state after one `get_data()` on
thread 0: `shutdown()` closes the registered channel 0 once. -/
theorem shutdown_spec_witness :
    (DataService.init.get_data 0).2.shutdown.closed 0 =
      (DataService.init.get_data 0).2.closed 0 + 1 :=
  (shutdown_spec (Reachable.get_data 0 Reachable.init)).1 0 (by decide)

/-- C8 counterexample: calling `get_data()` on thread 0 right after
`shutdown()` on a fresh service does not fail — it silently succeeds,
creating a fresh channel, registering it and populating the slot, contrary
to the claim that the call fails loudly and does not re-establish a
channel. -/
theorem get_data_after_shutdown_succeeds :
    (DataService.init.shutdown.get_data 0).1 = 0 ∧
    (DataService.init.shutdown.get_data 0).2.channels = [0] ∧
    ((DataService.init.shutdown.get_data 0).2.locals 0).data_stub = some 0 := by
  decide

/-- C8 (amended): after `shutdown()`, a session-scoped `get_data()` on any
thread silently succeeds as if on first use: it raises nothing, creates a
fresh channel, registers it as the only channel, and binds the thread's
slot to it — the session is silently reusable rather than failing
loudly. -/
theorem get_data_after_shutdown_creates_fresh_channel (s : DataService)
    (t : Nat) :
    (s.shutdown.get_data t).1 = s.nextChannel ∧
    (s.shutdown.get_data t).2.channels = [s.nextChannel] ∧
    ((s.shutdown.get_data t).2.locals t).channel = some s.nextChannel := by
  have hds : (s.shutdown.locals t).data_stub = none := by
    rw [shutdown_locals]; rfl
  have hcn : (s.shutdown.locals t).channel = none := by
    rw [shutdown_locals]; rfl
  refine ⟨?_, ?_, ?_⟩
  · rw [get_data_of_none hds]
    show (s.shutdown.get_channel t).1 = s.nextChannel
    rw [get_channel_none_fst hcn, shutdown_nextChannel]
  · rw [get_data_of_none hds]
    show ((s.shutdown.get_channel t).2.setLocal t
      { (s.shutdown.get_channel t).2.locals t with
          data_stub := some (s.shutdown.get_channel t).1 }).channels =
      [s.nextChannel]
    rw [setLocal_channels, get_channel_none_channels hcn, shutdown_channels,
      shutdown_nextChannel, List.nil_append]
  · rw [get_data_of_none hds]
    show (((s.shutdown.get_channel t).2.setLocal t
      { (s.shutdown.get_channel t).2.locals t with
          data_stub := some (s.shutdown.get_channel t).1 }).locals t).channel =
      some s.nextChannel
    rw [setLocal_locals, if_pos rfl]
    show ((s.shutdown.get_channel t).2.locals t).channel = some s.nextChannel
    rw [(get_channel_slot s.shutdown t).1, get_channel_none_fst hcn,
      shutdown_nextChannel]

theorem mismatchStep_eq (existing : List (String × String))
    (acc : List (String × String)) (req : Requirement) :
    mismatchStep existing acc req =
      acc ++ (mismatchEntry existing req).toList := by
  unfold mismatchStep mismatchEntry
  cases h : existing.lookup req.name with
  | none => simp
  | some ver => by_cases hs : req.satisfies ver <;> simp [hs]

theorem foldl_mismatchStep (existing : List (String × String))
    (versions : List Requirement) (acc : List (String × String)) :
    versions.foldl (mismatchStep existing) acc =
      acc ++ versions.filterMap (mismatchEntry existing) := by
  induction versions generalizing acc with
  | nil => simp
  | cons r rs ih =>
      rw [List.foldl_cons, ih, mismatchStep_eq]
      cases h : mismatchEntry existing r <;>
        simp [List.filterMap_cons, h]

theorem mismatchEntry_none_iff (existing : List (String × String))
    (req : Requirement) :
    mismatchEntry existing req = none ↔ reqMetB existing req = true := by
  unfold mismatchEntry reqMetB
  cases h : existing.lookup req.name with
  | none => simp
  | some ver => by_cases hs : req.satisfies ver <;> simp [hs]

theorem mismatchEntry_fst (existing : List (String × String))
    (req : Requirement) (e : String × String)
    (h : mismatchEntry existing req = some e) : e.1 = req.name := by
  unfold mismatchEntry at h
  cases hl : existing.lookup req.name with
  | none =>
      rw [hl] at h
      dsimp only at h
      rw [← Option.some.inj h]
  | some ver =>
      rw [hl] at h
      dsimp only at h
      by_cases hs : req.satisfies ver
      · rw [if_pos hs] at h
        cases h
      · rw [if_neg hs] at h
        rw [← Option.some.inj h]

theorem filterMap_mismatch_names (existing : List (String × String))
    (versions : List Requirement) :
    (versions.filterMap (mismatchEntry existing)).map Prod.fst =
      (versions.filter (fun req => !reqMetB existing req)).map
        Requirement.name := by
  induction versions with
  | nil => rfl
  | cons r rs ih =>
      rw [List.filterMap_cons, List.filter_cons]
      cases h : mismatchEntry existing r with
      | none =>
          have hm : reqMetB existing r = true :=
            (mismatchEntry_none_iff existing r).1 h
          simp [hm, ih]
      | some e =>
          have hm : reqMetB existing r = false := by
            cases hb : reqMetB existing r
            · rfl
            · have := (mismatchEntry_none_iff existing r).2 hb
              rw [h] at this
              cases this
          have he : e.1 = r.name := mismatchEntry_fst existing r e h
          simp [hm, ih, he]

/-- C6: `check_bblfsh_driver_versions` returns normally exactly when every
requirement is met by the installed-driver mapping built from the parse
service's response; otherwise it raises a single
`UnsatisfiedDriverVersionError` whose payload enumerates every unmet
requirement in order — an entry (named after the requirement) for each
missing language and for each installed version outside its required
range — never just the first mismatch found. -/
theorem check_bblfsh_driver_versions_spec (languages : List Driver)
    (versions : List Requirement) :
    (check_bblfsh_driver_versions languages versions = Except.ok () ↔
      ∀ req ∈ versions, reqMetB (buildExisting languages) req = true) ∧
    (∀ m, check_bblfsh_driver_versions languages versions = Except.error m →
      m.map Prod.fst =
        (versions.filter
          (fun req => !reqMetB (buildExisting languages) req)).map
          Requirement.name) := by
  have hch : check_bblfsh_driver_versions languages versions =
      (if (versions.filterMap
            (mismatchEntry (buildExisting languages))).isEmpty
       then Except.ok ()
       else Except.error
         (versions.filterMap (mismatchEntry (buildExisting languages)))) := by
    simp only [check_bblfsh_driver_versions]
    rw [foldl_mismatchStep, List.nil_append]
  constructor
  · rw [hch]
    by_cases he : (versions.filterMap
        (mismatchEntry (buildExisting languages))).isEmpty
    · rw [if_pos he]
      constructor
      · intro _ req hreq
        have hnil : versions.filterMap
            (mismatchEntry (buildExisting languages)) = [] :=
          List.isEmpty_iff.1 he
        exact (mismatchEntry_none_iff _ _).1
          (List.filterMap_eq_nil_iff.1 hnil req hreq)
      · intro _
        rfl
    · rw [if_neg he]
      constructor
      · intro hcontra
        exact Except.noConfusion hcontra
      · intro hall
        exfalso
        apply he
        have hnil : versions.filterMap
            (mismatchEntry (buildExisting languages)) = [] :=
          List.filterMap_eq_nil_iff.2
            (fun req hreq => (mismatchEntry_none_iff _ _).2 (hall req hreq))
        rw [hnil]
        rfl
  · intro m hm
    rw [hch] at hm
    by_cases he : (versions.filterMap
        (mismatchEntry (buildExisting languages))).isEmpty
    · rw [if_pos he] at hm
      exact Except.noConfusion hm
    · rw [if_neg he] at hm
      rw [← Except.error.inj hm]
      exact filterMap_mismatch_names (buildExisting languages) versions

/-- Witness for C6: against an installed set `{python: 1.9.0}`, the
requirements `python>=2.0.0` and `go==1.0.0` produce one aggregate error
naming both `python` (range unsatisfied) and `go` (missing). -/
theorem check_bblfsh_driver_versions_spec_witness :
    ([("python", "1.9.0 does not satisfy >=2.0.0"),
      ("go", "not installed, but required ==1.0.0")].map Prod.fst) =
      (([⟨"python", ">=2.0.0", fun _ => false⟩,
         ⟨"go", "==1.0.0", fun v => v == "1.0.0"⟩] : List Requirement).filter
        (fun req => !reqMetB (buildExisting [⟨"python", "1.9.0"⟩]) req)).map
        Requirement.name :=
  (check_bblfsh_driver_versions_spec [⟨"python", "1.9.0"⟩]
    [⟨"python", ">=2.0.0", fun _ => false⟩,
     ⟨"go", "==1.0.0", fun v => v == "1.0.0"⟩]).2
    [("python", "1.9.0 does not satisfy >=2.0.0"),
     ("go", "not installed, but required ==1.0.0")] (by rfl)

end Lookout
